import Mathlib

set_option linter.unusedVariables false

/-!
Verification of the abject-admin repository: the Express contact controller
(src/server/controllers/contact-controller.js) and the Angular ui-router
state configuration (src/client/app/app.js).

The server handlers are shallowly embedded as pure functions: a Mongoose
driver call is modelled by its outcome (`DbResult`), a handler maps the
request and the driver's replies to an `Outcome` (either a sent response
with a status and a JSON body, or an error object passed to `next` with a
status attached).  The document type returned by the database is kept as a
type parameter `Doc`, since the handlers never inspect documents.
-/

namespace AbjectAdmin

/-- A JavaScript `Error` object as the controller uses it: it carries a
message; the controller later attaches a `status` field, which the
embedding records next to the error in the outcome. -/
structure JsError where
  message : String
deriving DecidableEq, Repr

/-- The outcome of a Mongoose driver promise: it either resolves with a
value (the `.then` branch runs) or rejects with an error (the `.catch`
branch runs). -/
inductive DbResult (α : Type) where
  | resolved : α → DbResult α
  | rejected : JsError → DbResult α
deriving DecidableEq, Repr

/-- A JavaScript object such as `req.body`: an association list of field
names to (string) values; `getField` is property access, returning the
first binding or `none` (JavaScript `undefined`). -/
abbrev JsObject := List (String × String)

/-- Property access `o.k` on a JavaScript object. -/
def getField (o : JsObject) (k : String) : Option String :=
  (o.find? (fun p => p.1 == k)).map Prod.snd

/-- The part of an Express request the contact controller reads:
`req.params.id` and `req.body`. -/
structure Request where
  paramsId : String
  body : JsObject
deriving DecidableEq, Repr

/-- The argument `addContact` passes to the `Contact` constructor: exactly
the `name`, `email` and `number` fields of the request body. -/
structure ContactInput where
  name : Option String
  email : Option String
  number : Option String
deriving DecidableEq, Repr

/-- The database driver as the five handlers use it: each field is one
Mongoose operation, mapping the handler's query to the promise outcome.
`find` is `Contact.find({}).lean().exec()`, `findOne` is
`Contact.findOne({id: id}).exec()`, `save` is `newContact.save()`,
`findOneAndRemove` is `Contact.findOneAndRemove({id: id}).exec()` and
`findOneAndUpdate` is `Contact.findOneAndUpdate({id: id}, req.body,
{new: true}).exec()` (which resolve with `null`, modelled `none`, when no
document matches). -/
structure Driver (Doc : Type) where
  find : DbResult (List Doc)
  findOne : String → DbResult (Option Doc)
  save : ContactInput → DbResult Doc
  findOneAndRemove : String → DbResult (Option Doc)
  findOneAndUpdate : String → JsObject → DbResult (Option Doc)

/-- What a handler does with its request: either it sends a response
(`res.status(s).json(body)`) or it passes an error to `next` after
setting `err.status = s`. -/
inductive Outcome (β : Type) where
  | response (status : Nat) (body : β)
  | nextError (status : Nat) (err : JsError)
deriving DecidableEq, Repr

/-- The HTTP status attached to an outcome, whether on the response or on
the error passed to `next`. -/
def Outcome.statusOf {β : Type} : Outcome β → Nat
  | .response s _ => s
  | .nextError s _ => s

/-- Handler for `GET /`: sends the list from `Contact.find({})` with 200,
or forwards the driver error with status 503. -/
def getContacts {Doc : Type} (req : Request) (db : Driver Doc) :
    Outcome (List Doc) :=
  match db.find with
  | .resolved results => .response 200 results
  | .rejected err => .nextError 503 err

/-- Handler for `GET /:id`: on a resolved lookup it sends the document
with 200 if one was found and otherwise passes a fresh
`Error("Contact could not be found.")` to `next` with status 404; on a
rejected lookup it forwards the driver error with status 503. -/
def getContact {Doc : Type} (req : Request) (db : Driver Doc) :
    Outcome Doc :=
  match db.findOne req.paramsId with
  | .resolved result =>
    match result with
    | some r => .response 200 r
    | none => .nextError 404 (JsError.mk "Contact could not be found.")
  | .rejected err => .nextError 503 err

/-- The contact `addContact` constructs:
`new Contact({name: req.body.name, email: req.body.email, number:
req.body.number})`. -/
def newContact (req : Request) : ContactInput :=
  ContactInput.mk (getField req.body "name") (getField req.body "email")
    (getField req.body "number")

/-- Handler for `POST /`: saves the constructed contact, sends the saved
document with 201, or forwards the driver error with status 503. -/
def addContact {Doc : Type} (req : Request) (db : Driver Doc) :
    Outcome Doc :=
  match db.save (newContact req) with
  | .resolved result => .response 201 result
  | .rejected err => .nextError 503 err

/-- Handler for `DELETE /:id`: sends whatever `findOneAndRemove` resolved
with (the removed document, or `null` when none matched) with 200, or
forwards the driver error with status 404. -/
def deleteContact {Doc : Type} (req : Request) (db : Driver Doc) :
    Outcome (Option Doc) :=
  match db.findOneAndRemove req.paramsId with
  | .resolved result => .response 200 result
  | .rejected err => .nextError 404 err

/-- Handler for `PUT /:id`: sends whatever `findOneAndUpdate` resolved
with (the updated document, or `null` when none matched) with 200, or
forwards the driver error with status 404. -/
def editContact {Doc : Type} (req : Request) (db : Driver Doc) :
    Outcome (Option Doc) :=
  match db.findOneAndUpdate req.paramsId req.body with
  | .resolved result => .response 200 result
  | .rejected err => .nextError 404 err

/-- The HTTP methods used by the contact router. -/
inductive HttpMethod where
  | get | post | delete | put
deriving DecidableEq, Repr

/-- The five handler functions, as names, for stating which route is
bound to which handler. -/
inductive HandlerName where
  | getContacts | getContact | addContact | deleteContact | editContact
deriving DecidableEq, Repr

/-- One `router.<method>(path, protected, handler)` registration;
`protectedMw` records whether the `protected` middleware is in the
route's chain. -/
structure Route where
  method : HttpMethod
  path : String
  protectedMw : Bool
  handler : HandlerName
deriving DecidableEq, Repr

/-- The five registrations the contact controller performs on its router,
in source order. -/
def contactRouter : List Route :=
  [ Route.mk .get "/" true .getContacts,
    Route.mk .get "/:id" true .getContact,
    Route.mk .post "/" true .addContact,
    Route.mk .delete "/:id" true .deleteContact,
    Route.mk .put "/:id" true .editContact ]

/-- The `alreadyLoggedIn` resolve guard of the login state: it asks the
session service for the current user and, when the promise resolves with
a truthy user, transitions to the `dashboard` state; it does nothing when
the promise resolves falsy, and (having no rejection handler) nothing
when the promise rejects.  The result is the target state of the
transition the guard causes, if any. -/
def alreadyLoggedIn {User : Type} (getCurrentUser : DbResult (Option User)) :
    Option String :=
  match getCurrentUser with
  | .resolved response => if response.isSome then some "dashboard" else none
  | .rejected _ => none

/-- The `notLoggedIn` resolve guard of the dashboard and contacts states:
it asks the session service for the current user and, when the promise
resolves with a falsy user, transitions to the `login` state; otherwise
it causes no transition. -/
def notLoggedIn {User : Type} (getCurrentUser : DbResult (Option User)) :
    Option String :=
  match getCurrentUser with
  | .resolved response => if response.isSome then none else some "login"
  | .rejected _ => none

/-- The two guard functions, as names, for recording which state's
resolve block holds which guard. -/
inductive GuardName where
  | alreadyLoggedIn | notLoggedIn
deriving DecidableEq, Repr

/-- Run a guard by name. -/
def runGuard {User : Type} (g : GuardName)
    (getCurrentUser : DbResult (Option User)) : Option String :=
  match g with
  | .alreadyLoggedIn => alreadyLoggedIn getCurrentUser
  | .notLoggedIn => notLoggedIn getCurrentUser

/-- One ui-router state object as `config` builds it: name, url,
template, optional controller and controllerAs, the `$title` resolve
value, and the redirect guard in its resolve block, if any. -/
structure StateConfig where
  name : String
  url : String
  templateUrl : String
  controller : Option String
  controllerAs : Option String
  title : String
  guard : Option GuardName
deriving DecidableEq, Repr

/-- The `loginState` object. -/
def loginState : StateConfig :=
  StateConfig.mk "login" "/login" "/features/login/login.html" none none
    "Login" (some .alreadyLoggedIn)

/-- The `dashboardState` object. -/
def dashboardState : StateConfig :=
  StateConfig.mk "dashboard" "/" "/features/dashboard/dashboard.html"
    (some "DashboardController") (some "dashboardCtrl") "Dashboard"
    (some .notLoggedIn)

/-- The `contactsIndexState` object. -/
def contactsIndexState : StateConfig :=
  StateConfig.mk "contacts" "/contacts" "/features/contact/contact.index.html"
    (some "ContactController") (some "contactCtrl") "Contacts"
    (some .notLoggedIn)

/-- The `contactsNewState` object. -/
def contactsNewState : StateConfig :=
  StateConfig.mk "contacts-new" "/contacts/new"
    "/features/contact/contact.update.html" (some "ContactController")
    (some "contactCtrl") "New Contact" (some .notLoggedIn)

/-- The `contactsEditState` object. -/
def contactsEditState : StateConfig :=
  StateConfig.mk "contacts-edit" "/contacts/:id"
    "/features/contact/contact.update.html" (some "ContactController")
    (some "contactCtrl") "Edit Contact" (some .notLoggedIn)

/-- The `unauthorizedState` object (the 401 error page). -/
def unauthorizedState : StateConfig :=
  StateConfig.mk "unauthorized" "/401" "/features/error/401.html" none none
    "401 - Unauthorized" none

/-- The `notFoundState` object (the 404 error page; the url `*path` is
the ui-router catch-all matching any path). -/
def notFoundState : StateConfig :=
  StateConfig.mk "notFound" "*path" "/features/error/404.html" none none
    "404 - Not Found" none

/-- The states `config` registers with `$stateProvider.state(...)`, in
source order. -/
def registeredStates : List StateConfig :=
  [ loginState, dashboardState, contactsIndexState, contactsNewState,
    contactsEditState, unauthorizedState, notFoundState ]

/-!
## Concrete fixtures used by witness theorems
-/

/-- A sample driver error. -/
def errW : JsError := JsError.mk "driver failure"

/-- A sample request carrying the three contact fields. -/
def reqW : Request :=
  Request.mk "7"
    [("name", "Ada"), ("email", "ada@example.com"), ("number", "555")]

/-- A sample request with an empty body. -/
def reqEmptyW : Request := Request.mk "7" []

/-- The same body as `reqW` plus an unrelated extra field. -/
def reqExtraW : Request :=
  Request.mk "7"
    [("name", "Ada"), ("email", "ada@example.com"), ("number", "555"),
      ("role", "admin")]

/-- A driver whose every operation rejects with `errW`. -/
def dbRejectW : Driver Nat :=
  Driver.mk (.rejected errW) (fun _ => .rejected errW)
    (fun _ => .rejected errW) (fun _ => .rejected errW)
    (fun _ _ => .rejected errW)

/-- A driver whose every operation resolves with a document. -/
def dbResolveW : Driver Nat :=
  Driver.mk (.resolved [1, 2]) (fun _ => .resolved (some 3))
    (fun _ => .resolved 4) (fun _ => .resolved (some 5))
    (fun _ _ => .resolved (some 6))

/-- A driver whose lookups resolve with no matching document. -/
def dbNoneW : Driver Nat :=
  Driver.mk (.resolved []) (fun _ => .resolved none) (fun _ => .resolved 4)
    (fun _ => .resolved none) (fun _ _ => .resolved none)

/-!
## Theorems
-/

/-- C1: For every request handled by any of the contact controller's five
route handlers, the HTTP status attached to the outcome — set on the
response or on the error passed to `next` — is one of 200, 201, 404 or
503, and no other status is ever produced. -/
theorem contact_handlers_status_range {Doc : Type} (req : Request)
    (db : Driver Doc) :
    ((getContacts req db).statusOf = 200 ∨ (getContacts req db).statusOf = 201 ∨
      (getContacts req db).statusOf = 404 ∨ (getContacts req db).statusOf = 503) ∧
    ((getContact req db).statusOf = 200 ∨ (getContact req db).statusOf = 201 ∨
      (getContact req db).statusOf = 404 ∨ (getContact req db).statusOf = 503) ∧
    ((addContact req db).statusOf = 200 ∨ (addContact req db).statusOf = 201 ∨
      (addContact req db).statusOf = 404 ∨ (addContact req db).statusOf = 503) ∧
    ((deleteContact req db).statusOf = 200 ∨ (deleteContact req db).statusOf = 201 ∨
      (deleteContact req db).statusOf = 404 ∨ (deleteContact req db).statusOf = 503) ∧
    ((editContact req db).statusOf = 200 ∨ (editContact req db).statusOf = 201 ∨
      (editContact req db).statusOf = 404 ∨ (editContact req db).statusOf = 503) := by
  refine ⟨?_, ?_, ?_, ?_, ?_⟩
  · rcases hf : db.find with results | err <;>
      simp [getContacts, hf, Outcome.statusOf]
  · rcases hf : db.findOne req.paramsId with (_ | r) | err <;>
      simp [getContact, hf, Outcome.statusOf]
  · rcases hf : db.save (newContact req) with r | err <;>
      simp [addContact, hf, Outcome.statusOf]
  · rcases hf : db.findOneAndRemove req.paramsId with r | err <;>
      simp [deleteContact, hf, Outcome.statusOf]
  · rcases hf : db.findOneAndUpdate req.paramsId req.body with r | err <;>
      simp [editContact, hf, Outcome.statusOf]

/-- C2: Whenever the database driver operation a handler issued rejects
with an error, the handler forwards that same error object to `next` with
an HTTP status attached (503 for the get/add handlers, 404 for
delete/edit), performs no retry or recovery, and never sends a success
response in that case. -/
theorem driver_rejection_forwarded {Doc : Type} (req : Request)
    (db : Driver Doc) (e : JsError) :
    (db.find = .rejected e → getContacts req db = .nextError 503 e) ∧
    (db.findOne req.paramsId = .rejected e →
      getContact req db = .nextError 503 e) ∧
    (db.save (newContact req) = .rejected e →
      addContact req db = .nextError 503 e) ∧
    (db.findOneAndRemove req.paramsId = .rejected e →
      deleteContact req db = .nextError 404 e) ∧
    (db.findOneAndUpdate req.paramsId req.body = .rejected e →
      editContact req db = .nextError 404 e) := by
  refine ⟨?_, ?_, ?_, ?_, ?_⟩ <;> intro h <;>
    simp [getContacts, getContact, addContact, deleteContact, editContact, h]

/-- Witness for C2 at a concrete request and an all-rejecting driver. -/
theorem driver_rejection_forwarded_witness :
    getContacts reqW dbRejectW = .nextError 503 errW ∧
    getContact reqW dbRejectW = .nextError 503 errW ∧
    addContact reqW dbRejectW = .nextError 503 errW ∧
    deleteContact reqW dbRejectW = .nextError 404 errW ∧
    editContact reqW dbRejectW = .nextError 404 errW := by
  have h := driver_rejection_forwarded reqW dbRejectW errW
  exact ⟨h.1 rfl, h.2.1 rfl, h.2.2.1 rfl, h.2.2.2.1 rfl, h.2.2.2.2 rfl⟩

/-- C3: On driver success each handler sends the driver's result
unchanged as the response body: `getContacts` the list `find` resolved
with, `getContact` the found document, `addContact` the saved document,
`deleteContact` the `findOneAndRemove` result and `editContact` the
`findOneAndUpdate` result, with no transformation of its own. -/
theorem driver_success_passthrough {Doc : Type} (req : Request)
    (db : Driver Doc) :
    (∀ results, db.find = .resolved results →
      getContacts req db = .response 200 results) ∧
    (∀ d, db.findOne req.paramsId = .resolved (some d) →
      getContact req db = .response 200 d) ∧
    (∀ d, db.save (newContact req) = .resolved d →
      addContact req db = .response 201 d) ∧
    (∀ r, db.findOneAndRemove req.paramsId = .resolved r →
      deleteContact req db = .response 200 r) ∧
    (∀ r, db.findOneAndUpdate req.paramsId req.body = .resolved r →
      editContact req db = .response 200 r) := by
  refine ⟨?_, ?_, ?_, ?_, ?_⟩ <;> intro x h <;>
    simp [getContacts, getContact, addContact, deleteContact, editContact, h]

/-- Witness for C3 at a concrete request and an all-resolving driver. -/
theorem driver_success_passthrough_witness :
    getContacts reqW dbResolveW = .response 200 [1, 2] ∧
    getContact reqW dbResolveW = .response 200 3 ∧
    addContact reqW dbResolveW = .response 201 4 ∧
    deleteContact reqW dbResolveW = .response 200 (some 5) ∧
    editContact reqW dbResolveW = .response 200 (some 6) := by
  have h := driver_success_passthrough reqW dbResolveW
  exact ⟨h.1 [1, 2] rfl, h.2.1 3 rfl, h.2.2.1 4 rfl, h.2.2.2.1 (some 5) rfl,
    h.2.2.2.2 (some 6) rfl⟩

/-- C4: No handler inspects or rejects the request body or the id
parameter before the driver call: each handler's outcome is a function of
the driver's reply to the one query it issues alone, so two requests that
elicit the same driver reply get the same outcome — no request is refused
by handler-level validation. -/
theorem handlers_no_request_validation {Doc : Type} (req req' : Request)
    (db db' : Driver Doc) :
    (db.find = db'.find → getContacts req db = getContacts req' db') ∧
    (db.findOne req.paramsId = db'.findOne req'.paramsId →
      getContact req db = getContact req' db') ∧
    (db.save (newContact req) = db'.save (newContact req') →
      addContact req db = addContact req' db') ∧
    (db.findOneAndRemove req.paramsId = db'.findOneAndRemove req'.paramsId →
      deleteContact req db = deleteContact req' db') ∧
    (db.findOneAndUpdate req.paramsId req.body =
        db'.findOneAndUpdate req'.paramsId req'.body →
      editContact req db = editContact req' db') := by
  refine ⟨?_, ?_, ?_, ?_, ?_⟩ <;> intro h <;>
    simp [getContacts, getContact, addContact, deleteContact, editContact, h]

/-- Witness for C4: a full-bodied request and an empty-bodied request get
identical outcomes from every handler once the driver replies agree. -/
theorem handlers_no_request_validation_witness :
    getContacts reqW dbResolveW = getContacts reqEmptyW dbResolveW ∧
    getContact reqW dbResolveW = getContact reqEmptyW dbResolveW ∧
    addContact reqW dbResolveW = addContact reqEmptyW dbResolveW ∧
    deleteContact reqW dbResolveW = deleteContact reqEmptyW dbResolveW ∧
    editContact reqW dbResolveW = editContact reqEmptyW dbResolveW := by
  have h := handlers_no_request_validation reqW reqEmptyW dbResolveW dbResolveW
  exact ⟨h.1 rfl, h.2.1 rfl, h.2.2.1 rfl, h.2.2.2.1 rfl, h.2.2.2.2 rfl⟩

/-- C5: The login state's guard transitions to the dashboard state
exactly when the session service reports a current user; the guard shared
by the dashboard and all three contacts states transitions to the login
state exactly when it reports no current user; in every other case
(including a rejected session lookup) the guards cause no transition. -/
theorem guards_redirect_iff {User : Type} (s : DbResult (Option User)) :
    (∀ u, s = .resolved (some u) → alreadyLoggedIn s = some "dashboard") ∧
    ((∀ u, s ≠ .resolved (some u)) → alreadyLoggedIn s = none) ∧
    (s = .resolved none → notLoggedIn s = some "login") ∧
    (s ≠ .resolved none → notLoggedIn s = none) ∧
    loginState.guard = some GuardName.alreadyLoggedIn ∧
    dashboardState.guard = some GuardName.notLoggedIn ∧
    contactsIndexState.guard = some GuardName.notLoggedIn ∧
    contactsNewState.guard = some GuardName.notLoggedIn ∧
    contactsEditState.guard = some GuardName.notLoggedIn := by
  refine ⟨?_, ?_, ?_, ?_, rfl, rfl, rfl, rfl, rfl⟩
  · rintro u rfl
    simp [alreadyLoggedIn]
  · intro h
    rcases s with (_ | u) | e
    · simp [alreadyLoggedIn]
    · exact absurd rfl (h u)
    · simp [alreadyLoggedIn]
  · rintro rfl
    simp [notLoggedIn]
  · intro h
    rcases s with (_ | u) | e
    · exact absurd rfl h
    · simp [notLoggedIn]
    · simp [notLoggedIn]

/-- Witness for C5 at concrete session outcomes over `User := Nat`. -/
theorem guards_redirect_iff_witness :
    alreadyLoggedIn (DbResult.resolved (some 1)) = some "dashboard" ∧
    alreadyLoggedIn (DbResult.resolved (none : Option Nat)) = none ∧
    alreadyLoggedIn (DbResult.rejected errW : DbResult (Option Nat)) = none ∧
    notLoggedIn (DbResult.resolved (none : Option Nat)) = some "login" ∧
    notLoggedIn (DbResult.resolved (some 1)) = none ∧
    notLoggedIn (DbResult.rejected errW : DbResult (Option Nat)) = none := by
  refine ⟨(guards_redirect_iff _).1 1 rfl, ?_, ?_, (guards_redirect_iff _).2.2.1 rfl, ?_, ?_⟩
  · exact (guards_redirect_iff _).2.1 (by intro u h; simp at h)
  · exact (guards_redirect_iff _).2.1 (by intro u h; simp at h)
  · exact (guards_redirect_iff _).2.2.2.1 (by simp)
  · exact (guards_redirect_iff _).2.2.2.1 (by simp)

/-- C6: The contact controller registers exactly five routes
(GET /, GET /:id, POST /, DELETE /:id, PUT /:id), each bound to a
distinct handler function, and every registered route carries the
`protected` middleware. -/
theorem contact_router_registrations :
    contactRouter.length = 5 ∧
    contactRouter.map (fun r => (r.method, r.path)) =
      [(HttpMethod.get, "/"), (HttpMethod.get, "/:id"), (HttpMethod.post, "/"),
        (HttpMethod.delete, "/:id"), (HttpMethod.put, "/:id")] ∧
    contactRouter.map Route.handler =
      [HandlerName.getContacts, HandlerName.getContact, HandlerName.addContact,
        HandlerName.deleteContact, HandlerName.editContact] ∧
    (contactRouter.map Route.handler).Nodup ∧
    contactRouter.all (fun r => r.protectedMw) = true := by
  refine ⟨rfl, rfl, rfl, ?_, rfl⟩
  decide

/-- C7: The client registers exactly the seven routed views the spec
lists — login at /login, dashboard at /, contacts list/create/edit at
/contacts, /contacts/new and /contacts/:id, a 401 page at /401 and a
catch-all 404 page at the wildcard url — all with the state provider. -/
theorem client_states_registered :
    registeredStates.length = 7 ∧
    registeredStates.map StateConfig.name =
      ["login", "dashboard", "contacts", "contacts-new", "contacts-edit",
        "unauthorized", "notFound"] ∧
    registeredStates.map StateConfig.url =
      ["/login", "/", "/contacts", "/contacts/new", "/contacts/:id", "/401",
        "*path"] ∧
    registeredStates =
      [loginState, dashboardState, contactsIndexState, contactsNewState,
        contactsEditState, unauthorizedState, notFoundState] :=
  ⟨rfl, rfl, rfl, rfl⟩

/-- C8: When `findOneAndRemove` / `findOneAndUpdate` resolve with no
document (the id matched no contact), `deleteContact` and `editContact`
respond 200 with a null body; their 404 branch fires exactly when the
driver rejects, never because the contact was absent. -/
theorem delete_edit_absent_contact {Doc : Type} (req : Request)
    (db : Driver Doc) :
    (db.findOneAndRemove req.paramsId = .resolved none →
      deleteContact req db = .response 200 none) ∧
    (db.findOneAndUpdate req.paramsId req.body = .resolved none →
      editContact req db = .response 200 none) ∧
    (∀ s e, deleteContact req db = .nextError s e →
      s = 404 ∧ db.findOneAndRemove req.paramsId = .rejected e) ∧
    (∀ s e, editContact req db = .nextError s e →
      s = 404 ∧ db.findOneAndUpdate req.paramsId req.body = .rejected e) := by
  refine ⟨?_, ?_, ?_, ?_⟩
  · intro h
    simp [deleteContact, h]
  · intro h
    simp [editContact, h]
  · intro s e h
    rcases hf : db.findOneAndRemove req.paramsId with r | e'
    · simp [deleteContact, hf] at h
    · simp [deleteContact, hf] at h
      obtain ⟨h1, h2⟩ := h
      subst h1
      subst h2
      exact ⟨rfl, rfl⟩
  · intro s e h
    rcases hf : db.findOneAndUpdate req.paramsId req.body with r | e'
    · simp [editContact, hf] at h
    · simp [editContact, hf] at h
      obtain ⟨h1, h2⟩ := h
      subst h1
      subst h2
      exact ⟨rfl, rfl⟩

/-- Witness for C8: absent contact gives 200/null; the 404 branch at a
rejecting driver traces back to the rejection. -/
theorem delete_edit_absent_contact_witness :
    deleteContact reqW dbNoneW = .response 200 none ∧
    editContact reqW dbNoneW = .response 200 none ∧
    (404 = 404 ∧ dbNoneW.findOneAndRemove reqW.paramsId ≠
      DbResult.rejected errW) ∧
    (404 = 404 ∧ dbRejectW.findOneAndRemove reqW.paramsId =
      DbResult.rejected errW) := by
  refine ⟨(delete_edit_absent_contact reqW dbNoneW).1 rfl,
    (delete_edit_absent_contact reqW dbNoneW).2.1 rfl, ⟨rfl, by decide⟩, ?_⟩
  exact (delete_edit_absent_contact reqW dbRejectW).2.2.1 404 errW rfl

/-- C9: `getContact` distinguishes its three outcomes exactly: 200 with
the document iff the lookup resolved with a match, a fresh 404 error iff
it resolved with no match, and the driver's own error with 503 iff the
lookup rejected. -/
theorem getContact_outcomes_iff {Doc : Type} (req : Request)
    (db : Driver Doc) :
    (∀ d, db.findOne req.paramsId = .resolved (some d) ↔
      getContact req db = .response 200 d) ∧
    (db.findOne req.paramsId = .resolved none ↔
      getContact req db =
        .nextError 404 (JsError.mk "Contact could not be found.")) ∧
    (∀ e, db.findOne req.paramsId = .rejected e ↔
      getContact req db = .nextError 503 e) := by
  rcases hf : db.findOne req.paramsId with (_ | r) | e' <;>
    simp [getContact, hf]

/-- Witness for C9 at the three concrete driver behaviours. -/
theorem getContact_outcomes_iff_witness :
    getContact reqW dbResolveW = .response 200 3 ∧
    getContact reqW dbNoneW =
      .nextError 404 (JsError.mk "Contact could not be found.") ∧
    getContact reqW dbRejectW = .nextError 503 errW :=
  ⟨((getContact_outcomes_iff reqW dbResolveW).1 3).mp rfl,
    (getContact_outcomes_iff reqW dbNoneW).2.1.mp rfl,
    ((getContact_outcomes_iff reqW dbRejectW).2.2 errW).mp rfl⟩

/-- C10: `addContact` builds the new contact from only the `name`,
`email` and `number` fields of the body: two requests agreeing on those
three fields — however they differ elsewhere — produce the same contact
passed to `save` and, against the same driver, the same response. -/
theorem addContact_reads_only_three_fields {Doc : Type} (req1 req2 : Request)
    (db : Driver Doc)
    (hname : getField req1.body "name" = getField req2.body "name")
    (hemail : getField req1.body "email" = getField req2.body "email")
    (hnumber : getField req1.body "number" = getField req2.body "number") :
    newContact req1 = newContact req2 ∧
    addContact req1 db = addContact req2 db := by
  have hc : newContact req1 = newContact req2 := by
    simp [newContact, hname, hemail, hnumber]
  exact ⟨hc, by simp [addContact, hc]⟩

/-- Witness for C10: a body with an extra `role` field yields the same
saved contact and response as the plain body. -/
theorem addContact_reads_only_three_fields_witness :
    newContact reqW = newContact reqExtraW ∧
    addContact reqW dbResolveW = addContact reqExtraW dbResolveW :=
  addContact_reads_only_three_fields reqW reqExtraW dbResolveW rfl rfl rfl

end AbjectAdmin
